import Mathlib

/-!
Verification development for the QoE-Backend service (`src/main.py` and
`src/backend/database.py`). The Python handlers are embedded shallowly:
HTTP state is passed explicitly, machine-level concerns (JWT byte encoding,
bcrypt internals, JSON transport) are modelled symbolically but with the
same observable behaviour, and every fallible handler returns `Except`.
-/

set_option autoImplicit false

namespace QoE

/-! ## HTTP layer

`HTTPException(status_code=.., detail=.., headers=..)` from `src/main.py`.
FastAPI responses carry a status code and a body; routes without an explicit
`status_code` respond 200 on success.
-/

instance except_decEq {ε α : Type} [DecidableEq ε] [DecidableEq α] :
    DecidableEq (Except ε α) := fun a b =>
  match a, b with
  | .error e, .error f =>
    if h : e = f then .isTrue (h ▸ rfl) else .isFalse (fun hh => h (Except.error.inj hh))
  | .ok x, .ok y =>
    if h : x = y then .isTrue (h ▸ rfl) else .isFalse (fun hh => h (Except.ok.inj hh))
  | .error _, .ok _ => .isFalse (fun hh => Except.noConfusion hh)
  | .ok _, .error _ => .isFalse (fun hh => Except.noConfusion hh)

structure HTTPError where
  status : Nat
  detail : String
  headers : List (String × String)
deriving DecidableEq, Repr

structure HTTPResponse (α : Type) where
  status : Nat
  body : α
deriving DecidableEq, Repr

/-! ## Credential Manager

`pwd_context = CryptContext(schemes=["bcrypt"])` (src/main.py line 80).
bcrypt is modelled symbolically: a hash is the salt together with the
hashed password's preimage, `verify` re-checks the password against it.
Two hashes of the same password with different salts differ, yet both
verify — the observable contract of the spec's Credential Manager.
-/

structure Hash where
  salt : Nat
  pw : String
deriving DecidableEq, Repr

def hashPassword (p : String) (salt : Nat) : Hash := ⟨salt, p⟩

def verifyPassword (p : String) (h : Hash) : Bool := p == h.pw

/-! ## Data model

`User` as described by the spec's data model and the fallback
`UserResponse` in src/main.py lines 51-57 (id, username, email, provider,
is_active) plus the stored password hash.
-/

structure User where
  id : Nat
  username : String
  email : String
  hashed_password : Hash
  provider : Option String
  is_active : Bool
deriving DecidableEq, Repr

/-- Modelled from the spec: `findUserByUsername` of the Persistence Gateway
(`crud.get_user_by_username` is imported in src/main.py line 28 but the
`crud` module is not under src/): first stored record with the given
username, or none. -/
def get_user_by_username (db : List User) (username : String) : Option User :=
  db.find? (fun u => u.username == username)

/-! ## Token Service

`create_access_token` (src/main.py lines 85-90) and the `jwt.decode` call
inside `get_current_user` (line 97). Timestamps are seconds as `Nat`.
The HMAC signature is modelled symbolically: signing binds the key and the
payload; `jwt.decode` rejects a token whose signature was not produced
from the same key and payload (DecodeError), then rejects expired tokens
(ExpiredSignatureError, raised by PyJWT when `exp <= now`). Both errors
are subclasses of `jwt.PyJWTError`.
-/

structure TokenPayload where
  sub : Option String
  exp : Nat
deriving DecidableEq, Repr

def signToken (key : String) (p : TokenPayload) : String × TokenPayload := (key, p)

structure JwtToken where
  payload : TokenPayload
  sig : String × TokenPayload
deriving DecidableEq, Repr

inductive JwtError where
  | decodeError
  | expiredSignature
deriving DecidableEq, Repr

def ACCESS_TOKEN_EXPIRE_MINUTES : Nat := 30

def create_access_token (key : String) (sub : String) (now : Nat) : JwtToken :=
  let payload : TokenPayload := ⟨some sub, now + ACCESS_TOKEN_EXPIRE_MINUTES * 60⟩
  ⟨payload, signToken key payload⟩

def jwtDecode (key : String) (t : JwtToken) (now : Nat) : Except JwtError TokenPayload :=
  if t.sig = signToken key t.payload then
    if t.payload.exp ≤ now then .error .expiredSignature
    else .ok t.payload
  else .error .decodeError

/-! ## Auth Flow Controller -/

/-- Handler `get_current_user` (src/main.py lines 92-107): 503 when the database
modules are unavailable; decode the bearer token, mapping any
`jwt.PyJWTError` and a missing `sub` claim to 401 "Invalid authentication
credentials"; then resolve the subject, 401 "User not found" when absent. -/
def get_current_user_ep (avail : Bool) (key : String) (db : List User)
    (cred : JwtToken) (now : Nat) : Except HTTPError User :=
  if !avail then .error ⟨503, "Database not available", []⟩
  else
    match jwtDecode key cred now with
    | .error _ => .error ⟨401, "Invalid authentication credentials", []⟩
    | .ok payload =>
      match payload.sub with
      | none => .error ⟨401, "Invalid authentication credentials", []⟩
      | some username =>
        match get_user_by_username db username with
        | none => .error ⟨401, "User not found", []⟩
        | some u => .ok u

/-! ## Request bodies (src/main.py lines 41-49, or backend.schemas) -/

structure UserCreate where
  username : String
  email : String
  password : String
  provider : Option String
deriving DecidableEq, Repr

structure UserLogin where
  username : String
  password : String
deriving DecidableEq, Repr

structure TokenResponse where
  access_token : JwtToken
  token_type : String
deriving DecidableEq, Repr

/-- Modelled from the spec: `createUser` of the Persistence Gateway
(`crud.create_user` is not under src/): hashes the password via the
Credential Manager and stores a new active User; the store assigns the
integer identifier. `newId` and `salt` stand for the store-chosen id and
the fresh random salt. -/
def create_user (db : List User) (u : UserCreate) (newId salt : Nat) : User × List User :=
  let nu : User := ⟨newId, u.username, u.email, hashPassword u.password salt, u.provider, true⟩
  (nu, db ++ [nu])

/-- Modelled from the spec: `authenticate_user` (`crud` is not under src/,
spec section 4.4): look up the user by username; absent user or failed
password verification both give the same negative result. -/
def authenticate_user (db : List User) (username password : String) : Option User :=
  match get_user_by_username db username with
  | none => none
  | some u => if verifyPassword password u.hashed_password then some u else none

/-- Endpoint `register` (src/main.py lines 190-221): 503 without database
modules; 400 when the username, then the email, already exists; otherwise
create and return the new user. The route decorator declares no
`status_code`, so FastAPI responds 200 on success. Body parsing and
pydantic validation happen upstream of the embedded logic. Returns the
response together with the resulting user store. -/
def register_ep (avail : Bool) (db : List User) (u : UserCreate) (newId salt : Nat) :
    Except HTTPError (HTTPResponse User) × List User :=
  if !avail then (.error ⟨503, "Database not available", []⟩, db)
  else if (get_user_by_username db u.username).isSome then
    (.error ⟨400, "Username already registered", []⟩, db)
  else if (db.find? (fun w => w.email == u.email)).isSome then
    (.error ⟨400, "Email already registered", []⟩, db)
  else
    let r := create_user db u newId salt
    (.ok ⟨200, r.1⟩, r.2)

/-- Endpoint `login` (src/main.py lines 223-250): 503 without database
modules; a falsy `authenticate_user` result — unknown username or failed
verification alike — raises the single 401 response with the
`WWW-Authenticate: Bearer` header; success issues a token for the stored
username. -/
def login_ep (avail : Bool) (key : String) (db : List User) (l : UserLogin) (now : Nat) :
    Except HTTPError TokenResponse :=
  if !avail then .error ⟨503, "Database not available", []⟩
  else
    match authenticate_user db l.username l.password with
    | none => .error ⟨401, "Incorrect username or password", [("WWW-Authenticate", "Bearer")]⟩
    | some u => .ok ⟨create_access_token key u.username now, "bearer"⟩

/-! ## JSON values and `json.loads`

`parse_body` (src/main.py lines 163-187) manipulates request bodies with
`json.loads` and string operations. JSON values are modelled by `Json`;
`json_loads` is a recursive-descent parser for the JSON grammar as
`json.loads` accepts it on the fragment exercised here (strings with the
single-character escapes, objects, arrays, integers, booleans, null; the
model leaves out `\uXXXX` escapes and fractional/exponent number forms,
which no claim touches). Parsing consumes the whole input, as `json.loads`
requires. -/

inductive Json where
  | null
  | bool (b : Bool)
  | num (n : Int)
  | str (s : String)
  | arr (elems : List Json)
  | obj (fields : List (String × Json))

def lbraceChar : Char := Char.ofNat 123

def rbraceChar : Char := Char.ofNat 125

def skipWs : List Char → List Char
  | [] => []
  | c :: cs => if c = ' ' ∨ c = '\t' ∨ c = '\n' ∨ c = '\r' then skipWs cs else c :: cs

/-- The decoded character for a single-character JSON string escape. -/
def decodeEscape (c : Char) : Option Char :=
  if c = '"' then some '"'
  else if c = '\\' then some '\\'
  else if c = '/' then some '/'
  else if c = 'n' then some '\n'
  else if c = 't' then some '\t'
  else if c = 'r' then some '\r'
  else if c = 'b' then some (Char.ofNat 8)
  else if c = 'f' then some (Char.ofNat 12)
  else none

/-- Parse the remainder of a JSON string literal, after its opening quote:
the decoded characters and the input past the closing quote. -/
def parseStringChars : List Char → Option (List Char × List Char)
  | [] => none
  | c :: cs =>
    if c = '"' then some ([], cs)
    else if c = '\\' then
      match cs with
      | [] => none
      | e :: cs2 =>
        match decodeEscape e with
        | none => none
        | some d =>
          match parseStringChars cs2 with
          | none => none
          | some (s, rest) => some (d :: s, rest)
    else
      match parseStringChars cs with
      | none => none
      | some (s, rest) => some (c :: s, rest)

def dropKeyword (kw : List Char) (cs : List Char) : Option (List Char) :=
  if kw.isPrefixOf cs then some (cs.drop kw.length) else none

def digitVal (c : Char) : Option Nat :=
  if '0' ≤ c ∧ c ≤ '9' then some (c.toNat - 48) else none

def takeDigits : List Char → List Nat × List Char
  | [] => ([], [])
  | c :: cs =>
    match digitVal c with
    | none => ([], c :: cs)
    | some d =>
      let r := takeDigits cs
      (d :: r.1, r.2)

def digitsToNat (ds : List Nat) : Nat := ds.foldl (fun a d => a * 10 + d) 0

mutual

def parseValue : Nat → List Char → Option (Json × List Char)
  | 0, _ => none
  | Nat.succ fuel, cs =>
    match skipWs cs with
    | [] => none
    | c :: rest =>
      if c = '"' then
        match parseStringChars rest with
        | some (s, rest2) => some (.str (String.mk s), rest2)
        | none => none
      else if c = lbraceChar then
        match skipWs rest with
        | [] => none
        | c2 :: rest2 =>
          if c2 = rbraceChar then some (.obj [], rest2)
          else
            match parseMembers fuel (c2 :: rest2) with
            | some (fs, rest3) => some (.obj fs, rest3)
            | none => none
      else if c = '[' then
        match skipWs rest with
        | [] => none
        | c2 :: rest2 =>
          if c2 = ']' then some (.arr [], rest2)
          else
            match parseElems fuel (c2 :: rest2) with
            | some (vs, rest3) => some (.arr vs, rest3)
            | none => none
      else if c = 't' then
        match dropKeyword ['r', 'u', 'e'] rest with
        | some rest2 => some (.bool true, rest2)
        | none => none
      else if c = 'f' then
        match dropKeyword ['a', 'l', 's', 'e'] rest with
        | some rest2 => some (.bool false, rest2)
        | none => none
      else if c = 'n' then
        match dropKeyword ['u', 'l', 'l'] rest with
        | some rest2 => some (.null, rest2)
        | none => none
      else
        let neg := c = '-'
        let cs0 := if neg then rest else c :: rest
        match takeDigits cs0 with
        | ([], _) => none
        | (ds, rest2) =>
          let n : Int := Int.ofNat (digitsToNat ds)
          some (.num (if neg then -n else n), rest2)

def parseMembers : Nat → List Char → Option (List (String × Json) × List Char)
  | 0, _ => none
  | Nat.succ fuel, cs =>
    match skipWs cs with
    | [] => none
    | c :: rest =>
      if c = '"' then
        match parseStringChars rest with
        | none => none
        | some (k, rest2) =>
          match skipWs rest2 with
          | [] => none
          | c2 :: rest3 =>
            if c2 = ':' then
              match parseValue fuel rest3 with
              | none => none
              | some (v, rest4) =>
                match skipWs rest4 with
                | [] => none
                | c3 :: rest5 =>
                  if c3 = ',' then
                    match parseMembers fuel rest5 with
                    | none => none
                    | some (fs, rest6) => some ((String.mk k, v) :: fs, rest6)
                  else if c3 = rbraceChar then some ([(String.mk k, v)], rest5)
                  else none
            else none
      else none

def parseElems : Nat → List Char → Option (List Json × List Char)
  | 0, _ => none
  | Nat.succ fuel, cs =>
    match parseValue fuel cs with
    | none => none
    | some (v, rest) =>
      match skipWs rest with
      | [] => none
      | c :: rest2 =>
        if c = ',' then
          match parseElems fuel rest2 with
          | none => none
          | some (vs, rest3) => some (v :: vs, rest3)
        else if c = ']' then some ([v], rest2)
        else none

end

/-- Model of `json.loads`: parse a complete JSON document, rejecting trailing
content. One unit of fuel is spent per nesting level, so `length + 1`
always suffices. -/
def json_loads (s : String) : Option Json :=
  match parseValue (s.length + 1) s.data with
  | some (v, rest) => if skipWs rest = [] then some v else none
  | none => none

/-! ## `parse_body` string surgery (src/main.py lines 163-187) -/

/-- Python's `str.replace(old, new)`: leftmost non-overlapping
replacement, driven by fuel (one unit per consumed character). -/
def replaceChars (old new : List Char) : Nat → List Char → List Char
  | 0, cs => cs
  | _, [] => []
  | Nat.succ fuel, c :: cs =>
    if old ≠ [] ∧ old.isPrefixOf (c :: cs) then
      new ++ replaceChars old new fuel (List.drop old.length (c :: cs))
    else
      c :: replaceChars old new fuel cs

def strReplace (s old new : String) : String :=
  String.mk (replaceChars old.data new.data s.data.length s.data)

/-- Python `body_str.startswith('"')`. -/
def startsWithQuote (s : String) : Bool :=
  match s.data with
  | [] => false
  | c :: _ => c = '"'

/-- Python `body_str.endswith('"')`. -/
def endsWithQuote (s : String) : Bool :=
  match s.data.getLast? with
  | some c => c = '"'
  | none => false

/-- Python `body_str[1:-1]`. -/
def stripOuterQuotes (s : String) : String :=
  String.mk (s.data.drop 1).dropLast

/-- Helper `parse_body` (src/main.py lines 163-187): try `json.loads` on the raw
body; on failure, if the body is wrapped in double quotes, strip the outer
quotes, delete every literal `\r\n` sequence, delete every remaining
backslash, and try `json.loads` again; anything else is a 400. The model
fixes the detail string, which the claims never inspect. -/
def parse_body (s : String) : Except HTTPError Json :=
  match json_loads s with
  | some v => .ok v
  | none =>
    if startsWithQuote s && endsWithQuote s then
      match json_loads (strReplace (strReplace (stripOuterQuotes s) "\\r\\n" "") "\\" "") with
      | some v => .ok v
      | none => .error ⟨400, "Invalid JSON", []⟩
    else .error ⟨400, "Invalid JSON", []⟩

/-! ## Feedback and network logs -/

structure FeedbackCreate where
  rating : Nat
  category : String
  content : String
deriving DecidableEq, Repr

structure FeedbackRec where
  id : Nat
  user_id : Nat
  rating : Nat
  category : String
  content : String
deriving DecidableEq, Repr

structure NetworkLogCreate where
  location : String
  provider : String
  latency : Nat
deriving DecidableEq, Repr

structure NetworkLogRec where
  id : Nat
  user_id : Nat
  location : String
  provider : String
  latency : Nat
deriving DecidableEq, Repr

/-- Modelled from the spec: `createFeedback` of the Persistence Gateway
(`crud.create_feedback` is not under src/): store a record owned by the
given user id; the store assigns `newId`. -/
def create_feedback (fdb : List FeedbackRec) (f : FeedbackCreate) (user_id newId : Nat) :
    FeedbackRec × List FeedbackRec :=
  let r : FeedbackRec := ⟨newId, user_id, f.rating, f.category, f.content⟩
  (r, fdb ++ [r])

/-- Modelled from the spec: `listFeedback(userId?, offset, limit)`
(`crud.get_feedbacks` is not under src/): the records owned by the user,
in insertion order, paginated. -/
def get_feedbacks (fdb : List FeedbackRec) (user_id skip limit : Nat) : List FeedbackRec :=
  ((fdb.filter (fun r => r.user_id == user_id)).drop skip).take limit

/-- Modelled from the spec: `createNetworkLog` (`crud.create_network_log`
is not under src/), shaped like `createFeedback`. -/
def create_network_log (ldb : List NetworkLogRec) (l : NetworkLogCreate) (user_id newId : Nat) :
    NetworkLogRec × List NetworkLogRec :=
  let r : NetworkLogRec := ⟨newId, user_id, l.location, l.provider, l.latency⟩
  (r, ldb ++ [r])

/-- Durable path of `submit_feedback` (src/main.py lines 314-321): the inline
comment reads "You'll need to get user_id from authentication", and the
call hard-codes `user_id=1` for every requester. -/
def submit_feedback_durable (fdb : List FeedbackRec) (f : FeedbackCreate) (newId : Nat) :
    FeedbackRec × List FeedbackRec :=
  create_feedback fdb f 1 newId

/-- Durable path of `get_user_feedback` (src/main.py lines 331-335): always
lists `user_id=1`, skip 0, limit 100, with no authentication dependency. -/
def get_user_feedback_durable (fdb : List FeedbackRec) : List FeedbackRec :=
  get_feedbacks fdb 1 0 100

/-- Durable path of `submit_network_log` (src/main.py lines 351-357):
`user_id=1` hard-coded exactly like feedback. -/
def submit_network_log_durable (ldb : List NetworkLogRec) (l : NetworkLogCreate) (newId : Nat) :
    NetworkLogRec × List NetworkLogRec :=
  create_network_log ldb l 1 newId

/-! ## Fallback (degraded) mode bodies -/

structure FallbackEcho where
  id : Nat
  message : String
  data : Json

/-- Fallback branch of `submit_feedback` (src/main.py lines 304-312): a
stateless echo with the constant id 1. -/
def submit_feedback_fallback (data : Json) : FallbackEcho :=
  ⟨1, "Feedback received (stored in memory)", data⟩

/-- Fallback branch of `get_user_feedback` (src/main.py lines 328-329). -/
def get_user_feedback_fallback : List FallbackEcho := []

/-- Fallback branch of `submit_network_log` (src/main.py lines 342-349). -/
def submit_network_log_fallback (data : Json) : FallbackEcho :=
  ⟨1, "Network log received (stored in memory)", data⟩

/-- Fallback branch of `get_user_network_logs` (src/main.py lines 364-365). -/
def get_user_network_logs_fallback : List FallbackEcho := []

/-! ## Concrete fixtures used by counterexamples and witnesses -/

def aliceUser : User := ⟨1, "alice", "alice@example.com", hashPassword "alicepw" 7, some "MTN", true⟩

def bobInactive : User := ⟨2, "bob", "bob@example.com", hashPassword "bobpw" 3, none, false⟩

/-- A token whose signature was produced with a different key: `jwt.decode`
under key `"k"` rejects it. -/
def tamperedToken : JwtToken := ⟨⟨some "alice", 1800⟩, signToken "other-key" ⟨some "alice", 1800⟩⟩

def freshCreate : UserCreate := ⟨"carol", "carol@example.com", "secret", none⟩

def carolUser : User := ⟨1, "carol", "carol@example.com", hashPassword "secret" 5, none, true⟩

/-- A malformed double-encoded request body. Its raw characters are:
quote, open brace, quote, `a`, quote, colon, space, quote, `b`,
backslash, backslash, `c`, quote, close brace, quote — a client that
JSON-encoded the object text but forgot to escape the inner quotes. It
starts and ends with a double quote yet is not valid JSON, and the text
between the outer quotes is the JSON object mapping "a" to the
three-character string b-backslash-c. -/
def doubleEncodedBody : String := "\"\x7b\"a\": \"b\\\\c\"\x7d\""

end QoE

namespace QoE

/-- C1: the issued token expires exactly 30 minutes after issuance;
decoding it at or after that moment fails with `ExpiredSignatureError`
(and `get_current_user` answers 401), while decoding strictly before
expiry returns the payload carrying the subject. -/
theorem token_expiry_boundary (key sub : String) (now v : Nat) :
    (create_access_token key sub now).payload.exp = now + 30 * 60 ∧
    (now + 30 * 60 ≤ v →
      jwtDecode key (create_access_token key sub now) v = .error .expiredSignature ∧
      ∀ db : List User, get_current_user_ep true key db (create_access_token key sub now) v =
        .error ⟨401, "Invalid authentication credentials", []⟩) ∧
    (v < now + 30 * 60 →
      jwtDecode key (create_access_token key sub now) v = .ok ⟨some sub, now + 30 * 60⟩) := by
  refine ⟨rfl, fun h => ?_, fun h => ?_⟩
  · have hdec : jwtDecode key (create_access_token key sub now) v = .error .expiredSignature := by
      simp [jwtDecode, create_access_token, ACCESS_TOKEN_EXPIRE_MINUTES, signToken]
      omega
    exact ⟨hdec, fun db => by simp [get_current_user_ep, hdec]⟩
  · simp [jwtDecode, create_access_token, ACCESS_TOKEN_EXPIRE_MINUTES, signToken]
    omega

/-- Witness for C1 at a concrete issuance: expiry is 1800, time 1800 is
rejected as expired, time 1799 yields the subject. -/
theorem token_expiry_boundary_witness :
    jwtDecode "k" (create_access_token "k" "alice" 0) 1800 = .error .expiredSignature ∧
    jwtDecode "k" (create_access_token "k" "alice" 0) 1799 = .ok ⟨some "alice", 0 + 30 * 60⟩ :=
  ⟨((token_expiry_boundary "k" "alice" 0 1800).2.1 (by norm_num)).1,
   (token_expiry_boundary "k" "alice" 0 1799).2.2 (by norm_num)⟩

end QoE

namespace QoE

/-- C2 counterexample: at concrete inputs, a tampered-token failure and a
user-not-found failure of `get_current_user` both answer 401 but with
different bodies ("Invalid authentication credentials" vs "User not
found"), so the two Unauthorized responses are not observably identical. -/
theorem auth_error_bodies_differ :
    get_current_user_ep true "k" [aliceUser] tamperedToken 10 =
      .error ⟨401, "Invalid authentication credentials", []⟩ ∧
    get_current_user_ep true "k" [aliceUser] (create_access_token "k" "ghost" 0) 10 =
      .error ⟨401, "User not found", []⟩ ∧
    get_current_user_ep true "k" [aliceUser] tamperedToken 10 ≠
      get_current_user_ep true "k" [aliceUser] (create_access_token "k" "ghost" 0) 10 := by
  refine ⟨by decide, by decide, by decide⟩

/-- C2 amended: every token-validation failure (tampered, expired, missing
subject claim) yields the one response 401 "Invalid authentication
credentials", and a valid token whose subject resolves to no user yields
401 "User not found"; the two responses share the status but their bodies
differ, so the cause is distinguishable. -/
theorem auth_error_uniformity (key : String) (db : List User) (t : JwtToken) (now : Nat) :
    (∀ e, jwtDecode key t now = .error e →
      get_current_user_ep true key db t now =
        .error ⟨401, "Invalid authentication credentials", []⟩) ∧
    (t.payload.sub = none → jwtDecode key t now = .ok t.payload →
      get_current_user_ep true key db t now =
        .error ⟨401, "Invalid authentication credentials", []⟩) ∧
    (∀ s, t.payload.sub = some s → jwtDecode key t now = .ok t.payload →
      get_user_by_username db s = none →
      get_current_user_ep true key db t now = .error ⟨401, "User not found", []⟩) ∧
    (HTTPError.mk 401 "Invalid authentication credentials" []).status =
      (HTTPError.mk 401 "User not found" []).status ∧
    (HTTPError.mk 401 "Invalid authentication credentials" []).detail ≠
      (HTTPError.mk 401 "User not found" []).detail := by
  refine ⟨fun e he => ?_, fun hs hok => ?_, fun s hs hok hn => ?_, rfl, by decide⟩
  · simp [get_current_user_ep, he]
  · simp [get_current_user_ep, hok, hs]
  · simp [get_current_user_ep, hok, hs, hn]

/-- Witness for amended C2: the tampered token at a concrete state produces
the uniform 401 token-failure response. -/
theorem auth_error_uniformity_witness :
    get_current_user_ep true "k" [aliceUser] tamperedToken 10 =
      .error ⟨401, "Invalid authentication credentials", []⟩ :=
  (auth_error_uniformity "k" [aliceUser] tamperedToken 10).1 .decodeError (by decide)

/-- C3 counterexample: a cryptographically valid, unexpired token for the
inactive user `bob` authenticates successfully — `get_current_user`
returns the record with `is_active = false` instead of Unauthorized. -/
theorem inactive_user_authenticates :
    bobInactive.is_active = false ∧
    get_current_user_ep true "k" [bobInactive] (create_access_token "k" "bob" 0) 10 =
      .ok bobInactive := by
  refine ⟨rfl, by decide⟩

/-- C3 amended: for a valid, unexpired token, `get_current_user` answers
401 Unauthorized exactly when the subject resolves to no user record; when
the user exists it returns the record regardless of the active flag (the
code never consults `is_active`). -/
theorem authenticate_ignores_active_flag (key : String) (db : List User) (t : JwtToken)
    (now : Nat) (s : String)
    (hok : jwtDecode key t now = .ok t.payload) (hs : t.payload.sub = some s) :
    (get_user_by_username db s = none →
      get_current_user_ep true key db t now = .error ⟨401, "User not found", []⟩) ∧
    (∀ u, get_user_by_username db s = some u →
      get_current_user_ep true key db t now = .ok u) := by
  constructor
  · intro hn
    simp [get_current_user_ep, hok, hs, hn]
  · intro u hu
    simp [get_current_user_ep, hok, hs, hu]

/-- Witness for amended C3: the inactive user `bob` is returned live. -/
theorem authenticate_ignores_active_flag_witness :
    get_current_user_ep true "k" [bobInactive] (create_access_token "k" "bob" 0) 10 =
      .ok bobInactive :=
  (authenticate_ignores_active_flag "k" [bobInactive] (create_access_token "k" "bob" 0) 10 "bob"
    (by decide) (by decide)).2 bobInactive (by decide)

end QoE

namespace QoE

/-- A `find?` search succeeds exactly when some list element satisfies the
predicate. -/
theorem find?_isSome_iff {α : Type} (p : α → Bool) (l : List α) :
    (l.find? p).isSome = true ↔ ∃ x ∈ l, p x = true := by
  induction l with
  | nil => simp [List.find?]
  | cons a t ih =>
    cases hpa : p a with
    | true => simp [List.find?_cons, hpa]
    | false => simp [List.find?_cons, hpa, ih]

/-- C4: logging in with a registered username but a wrong password, and
logging in with a nonexistent username, produce the very same Unauthorized
response — status 401, identical body and identical headers. -/
theorem login_uniform_unauthorized (key : String) (db : List User) (w : User)
    (p q u2 q2 : String) (now1 now2 : Nat)
    (hw : get_user_by_username db w.username = some w)
    (hp : w.hashed_password.pw = p) (hq : q ≠ p)
    (h2 : get_user_by_username db u2 = none) :
    login_ep true key db ⟨w.username, q⟩ now1 =
      .error ⟨401, "Incorrect username or password", [("WWW-Authenticate", "Bearer")]⟩ ∧
    login_ep true key db ⟨u2, q2⟩ now2 =
      .error ⟨401, "Incorrect username or password", [("WWW-Authenticate", "Bearer")]⟩ ∧
    login_ep true key db ⟨w.username, q⟩ now1 = login_ep true key db ⟨u2, q2⟩ now2 := by
  have hv : verifyPassword q w.hashed_password = false := by
    simp only [verifyPassword, hp, beq_eq_false_iff_ne, ne_eq]
    exact hq
  have e1 : login_ep true key db ⟨w.username, q⟩ now1 =
      .error ⟨401, "Incorrect username or password", [("WWW-Authenticate", "Bearer")]⟩ := by
    simp [login_ep, authenticate_user, hw, hv]
  have e2 : login_ep true key db ⟨u2, q2⟩ now2 =
      .error ⟨401, "Incorrect username or password", [("WWW-Authenticate", "Bearer")]⟩ := by
    simp [login_ep, authenticate_user, h2]
  exact ⟨e1, e2, e1.trans e2.symm⟩

/-- Witness for C4: wrong password for `alice` and unknown username
`ghost` both answer the identical 401 at concrete states. -/
theorem login_uniform_unauthorized_witness :
    login_ep true "k" [aliceUser] ⟨"alice", "wrong"⟩ 5 =
      .error ⟨401, "Incorrect username or password", [("WWW-Authenticate", "Bearer")]⟩ ∧
    login_ep true "k" [aliceUser] ⟨"ghost", "x"⟩ 6 =
      .error ⟨401, "Incorrect username or password", [("WWW-Authenticate", "Bearer")]⟩ :=
  ⟨(login_uniform_unauthorized "k" [aliceUser] aliceUser "alicepw" "wrong" "ghost" "x" 5 6
      (by decide) (by decide) (by decide) (by decide)).1,
   (login_uniform_unauthorized "k" [aliceUser] aliceUser "alicepw" "wrong" "ghost" "x" 5 6
      (by decide) (by decide) (by decide) (by decide)).2.1⟩

/-- C6: registering a username that already exists answers 400 for every
email, existing or fresh; registering a fresh username with an existing
email answers 400 as well; the stored user set is unchanged in both
cases. -/
theorem register_conflicts (db : List User) (u : UserCreate) (newId salt : Nat) :
    ((∃ w ∈ db, w.username = u.username) →
      register_ep true db u newId salt = (.error ⟨400, "Username already registered", []⟩, db)) ∧
    ((∀ w ∈ db, w.username ≠ u.username) → (∃ w ∈ db, w.email = u.email) →
      register_ep true db u newId salt = (.error ⟨400, "Email already registered", []⟩, db)) := by
  constructor
  · rintro ⟨w, hw, he⟩
    have h1 : (get_user_by_username db u.username).isSome = true := by
      rw [get_user_by_username, find?_isSome_iff]
      exact ⟨w, hw, by simp [he]⟩
    simp [register_ep, h1]
  · rintro hnone ⟨w, hw, he⟩
    have h1 : get_user_by_username db u.username = none := by
      rw [get_user_by_username, List.find?_eq_none]
      intro x hx
      simpa using hnone x hx
    have h2 : (db.find? (fun w => w.email == u.email)).isSome = true := by
      rw [find?_isSome_iff]
      exact ⟨w, hw, by simp [he]⟩
    simp [register_ep, h1, h2]

/-- Witness for C6: with `alice` stored, a duplicate-username request and a
duplicate-email request each answer 400 and leave the store unchanged. -/
theorem register_conflicts_witness :
    register_ep true [aliceUser] ⟨"alice", "fresh@example.com", "pw", none⟩ 2 9 =
      (.error ⟨400, "Username already registered", []⟩, [aliceUser]) ∧
    register_ep true [aliceUser] ⟨"carol", "alice@example.com", "pw", none⟩ 2 9 =
      (.error ⟨400, "Email already registered", []⟩, [aliceUser]) :=
  ⟨(register_conflicts [aliceUser] ⟨"alice", "fresh@example.com", "pw", none⟩ 2 9).1
      ⟨aliceUser, by decide, by decide⟩,
   (register_conflicts [aliceUser] ⟨"carol", "alice@example.com", "pw", none⟩ 2 9).2
      (by decide) ⟨aliceUser, by decide, by decide⟩⟩

/-- C9: with the database modules unavailable, register, login and
`get_current_user` all fail with the 503 "Database not available" error,
for every input, so no user can be created or authenticated in degraded
mode. -/
theorem degraded_mode_503 (key : String) (db : List User) (u : UserCreate) (l : UserLogin)
    (t : JwtToken) (now newId salt : Nat) :
    register_ep false db u newId salt = (.error ⟨503, "Database not available", []⟩, db) ∧
    login_ep false key db l now = .error ⟨503, "Database not available", []⟩ ∧
    get_current_user_ep false key db t now = .error ⟨503, "Database not available", []⟩ :=
  ⟨rfl, rfl, rfl⟩

end QoE

namespace QoE

/-- C5 counterexample: in fallback mode the second create does not receive
identifier 2 — every create answers the constant id 1 — and listing after
creates returns the empty list rather than the records in insertion
order. -/
theorem fallback_ids_constant :
    (submit_feedback_fallback (Json.str "first")).id = 1 ∧
    (submit_feedback_fallback (Json.str "second")).id ≠ 2 ∧
    get_user_feedback_fallback = [] := by
  refine ⟨rfl, by decide, rfl⟩

/-- C5 amended: in fallback mode nothing is stored — every feedback or
network-log create answers the constant identifier 1 echoing the submitted
data, and every list answers the empty sequence. -/
theorem fallback_echo_shape (d1 d2 : Json) :
    submit_feedback_fallback d1 = ⟨1, "Feedback received (stored in memory)", d1⟩ ∧
    submit_network_log_fallback d2 = ⟨1, "Network log received (stored in memory)", d2⟩ ∧
    get_user_feedback_fallback = [] ∧
    get_user_network_logs_fallback = [] :=
  ⟨rfl, rfl, rfl, rfl⟩

/-- C7 counterexample: a successful registration at a concrete state
answers status 200 — not 201 — and its body is the raw stored user
record, which carries the password-hash field. -/
theorem register_status_200 :
    (register_ep true [] freshCreate 1 5).1 = .ok ⟨200, carolUser⟩ ∧
    (HTTPResponse.mk 200 carolUser).status ≠ 201 ∧
    carolUser.hashed_password = hashPassword "secret" 5 := by
  refine ⟨by decide, by decide, rfl⟩

/-- C7 amended: a registration whose username and email are both fresh
answers FastAPI's default status 200 (the route declares no 201) with the
raw user record — password-hash field included — and duplicate-username
or duplicate-email requests answer status 400. -/
theorem register_response_shape (db : List User) (u : UserCreate) (newId salt : Nat) :
    (get_user_by_username db u.username = none →
      db.find? (fun w => w.email == u.email) = none →
      register_ep true db u newId salt =
        (.ok ⟨200, ⟨newId, u.username, u.email, hashPassword u.password salt, u.provider, true⟩⟩,
         db ++ [⟨newId, u.username, u.email, hashPassword u.password salt, u.provider, true⟩])) ∧
    ((get_user_by_username db u.username).isSome = true →
      (register_ep true db u newId salt).1 = .error ⟨400, "Username already registered", []⟩) ∧
    (get_user_by_username db u.username = none →
      (db.find? (fun w => w.email == u.email)).isSome = true →
      (register_ep true db u newId salt).1 = .error ⟨400, "Email already registered", []⟩) := by
  refine ⟨fun h1 h2 => ?_, fun h1 => ?_, fun h1 h2 => ?_⟩
  · simp [register_ep, h1, h2, create_user]
  · simp [register_ep, h1]
  · simp [register_ep, h1, h2]

/-- Witness for amended C7: registering `carol` against the empty store
answers status 200 with the record carrying her password hash. -/
theorem register_response_shape_witness :
    register_ep true [] freshCreate 1 5 = (.ok ⟨200, carolUser⟩, [carolUser]) :=
  (register_response_shape [] freshCreate 1 5).1 (by decide) (by decide)

/-- C8: the durable feedback and network-log paths are not scoped to the
authenticated requester — creates store owner id 1 for everyone, and the
list answers user 1's records to every caller: a record owned by user 2 is
never listed while a user-1 record always is. -/
theorem feedback_not_user_scoped :
    (submit_feedback_durable [] ⟨5, "speed", "slow upload"⟩ 1).1.user_id = 1 ∧
    get_user_feedback_durable [⟨1, 2, 5, "speed", "slow upload"⟩] = [] ∧
    get_user_feedback_durable [⟨1, 1, 5, "speed", "slow upload"⟩] =
      [⟨1, 1, 5, "speed", "slow upload"⟩] ∧
    (submit_network_log_durable [] ⟨"Buea", "MTN", 30⟩ 1).1.user_id = 1 := by
  refine ⟨rfl, by decide, by decide, rfl⟩

/-- C10: a body that is valid JSON is returned exactly as `json.loads`
decodes it; and the concrete malformed double-encoded body — wrapped in
double quotes, not itself valid JSON, its inner JSON text holding an
escaped backslash inside a string value — has every backslash stripped by
`parse_body`, which therefore returns data different from the correct
decoding of the inner JSON text. -/
theorem parse_body_behaviour :
    (∀ (s : String) (v : Json), json_loads s = some v → parse_body s = .ok v) ∧
    startsWithQuote doubleEncodedBody = true ∧
    endsWithQuote doubleEncodedBody = true ∧
    json_loads doubleEncodedBody = none ∧
    json_loads (stripOuterQuotes doubleEncodedBody) =
      some (Json.obj [("a", Json.str "b\\c")]) ∧
    parse_body doubleEncodedBody = .ok (Json.obj [("a", Json.str "bc")]) ∧
    Json.obj [("a", Json.str "bc")] ≠ Json.obj [("a", Json.str "b\\c")] := by
  refine ⟨fun s v h => ?_, rfl, rfl, rfl, rfl, rfl, ?_⟩
  · simp [parse_body, h]
  · intro h
    injection h with h1
    injection h1 with h2 h3
    injection h2 with h4 h5
    injection h5 with h6
    exact absurd h6 (by decide)

/-- Witness for C10: a well-formed JSON object body is decoded and
returned unchanged. -/
theorem parse_body_behaviour_witness :
    parse_body "\x7b\"a\": 1\x7d" = .ok (Json.obj [("a", Json.num 1)]) :=
  parse_body_behaviour.1 "\x7b\"a\": 1\x7d" (Json.obj [("a", Json.num 1)]) rfl

end QoE
